import Mathlib

/-!
Shallow embedding of the session message-multiplexing and state-reconciliation
layer of the recruiter-playground frontend.

The embedded source units are:
  - frontend/src/components/playground/Playground.tsx
      (onDataReceived, the room-state reset useEffect, handleCodeChange,
       the component state: transcripts, userCode, questionDescription,
       testResults)
  - frontend/src/components/timer/InterviewTimer.tsx
      (three variants are present in the file: two string-based ones sharing
       formatTimeDisplay, and a numeric one with formatTime; all three share
       the same handleTimeUpdate body)
  - frontend/src/components/playground/TestResults.tsx
      (the render function of the TestResults component together with its
       selectedIndex useState)

JavaScript dynamic values that flow through the handlers are modelled by the
`Json` type below; `undefined` stands for the JavaScript value undefined, which
never results from JSON.parse but does result from a missing-property access.
Operations that throw a TypeError in JavaScript are modelled with Option or
Except, the error case standing for the thrown exception.
-/

/-- A JavaScript value as it appears in the embedded handlers: the result of
JSON.parse extended with undefined. Numbers are modelled as integers: every
payload field the handlers inspect numerically (timestamps, seconds counts,
summary counters) carries integral values, and no claim depends on fractional
or NaN arithmetic beyond what is modelled explicitly below. -/
inductive Json where
  | null
  | undefined
  | bool (b : Bool)
  | num (n : Int)
  | str (s : String)
  | arr (elems : List Json)
  | obj (fields : List (String × Json))

/-- First binding of a key in an object field list (object literals produced by
JSON.parse and by the handlers have unique keys). -/
def lookupField (fields : List (String × Json)) (k : String) : Option Json :=
  match fields with
  | [] => none
  | (k2, v) :: rest => if k2 == k then some v else lookupField rest k

/-- JavaScript member access `j.k`: throws a TypeError (none) when the receiver
is null or undefined, yields undefined for a missing property or a primitive
receiver (wrapper-object properties such as String.length are not used by the
embedded handlers). -/
def Json.member (j : Json) (k : String) : Option Json :=
  match j with
  | .null => none
  | .undefined => none
  | .obj fields => some ((lookupField fields k).getD .undefined)
  | _ => some .undefined

/-- The JavaScript `k in j` test: throws a TypeError (none) on primitive,
null or undefined receivers; on arrays only the properties the handlers could
ever test are modelled (no index or length lookups occur in the source). -/
def Json.hasProp (j : Json) (k : String) : Option Bool :=
  match j with
  | .obj fields => some (fields.any (fun f => f.1 == k))
  | .arr _ => some false
  | _ => none

/-- JavaScript truthiness. -/
def Json.truthy : Json → Bool
  | .null => false
  | .undefined => false
  | .bool b => b
  | .num n => !(n == 0)
  | .str s => !(s == "")
  | .arr _ => true
  | .obj _ => true

/-- The JavaScript `a || b` expression. -/
def jsOr (a b : Json) : Json :=
  if a.truthy then a else b

/-- Whether the value is exactly the given string (the `=== "literal"`
comparisons of the source). -/
def Json.isStr (j : Json) (s : String) : Bool :=
  match j with
  | .str t => t == s
  | _ => false

/-- JavaScript template-literal stringification, as used by
`\x7b$\x7bskeleton_code || two-quotes\x7d\x7d` in Playground.tsx. The array
case joins elements with commas as Array.prototype.toString does. -/
def Json.toTemplateString : Json → String
  | .null => "null"
  | .undefined => "undefined"
  | .bool b => if b then "true" else "false"
  | .num n => toString n
  | .str s => s
  | .arr elems => templateJoin elems
  | .obj _ => "[object Object]"
where
  templateJoin : List Json → String
  | [] => ""
  | [x] => x.toTemplateString
  | x :: y :: rest => x.toTemplateString ++ "," ++ templateJoin (y :: rest)

/-- One decimal digit of a numeric string. -/
def decDigit? (c : Char) : Option Nat :=
  if c.isDigit then some (c.toNat - 48) else none

/-- Decimal digits accumulated left to right; none when a non-digit occurs. -/
def parseNatAux : List Char → Nat → Option Nat
  | [], acc => some acc
  | c :: rest, acc =>
    match decDigit? c with
    | some d => parseNatAux rest (acc * 10 + d)
    | none => none

/-- JavaScript ToNumber on a string, restricted to the forms the timer can
receive: the empty string is 0, an optional minus sign followed by decimal
digits is that integer, anything else — in particular a formatted clock
reading with colons — is NaN (none). Whitespace trimming and fractional or
hexadecimal forms are not modelled; no embedded input uses them. -/
def strToNumber (s : String) : Option Int :=
  match s.toList with
  | [] => some 0
  | '-' :: rest =>
    match rest with
    | [] => none
    | _ => (parseNatAux rest 0).map (fun n => -(n : Int))
  | l => (parseNatAux l 0).map (fun n => (n : Int))

/-- JavaScript ToNumber coercion restricted to the values the timer handlers
can receive; none stands for NaN. -/
def Json.toNumber : Json → Option Int
  | .num n => some n
  | .str s => strToNumber s
  | .bool b => some (if b then 1 else 0)
  | .null => some 0
  | _ => none

/-! ## Messages and the Playground component state (Playground.tsx) -/

/-- An inbound data-channel message as delivered to the handlers: the topic
tag, the sender identity (never inspected by any embedded handler), and the
result of JSON.parse on the UTF-8 decoding of the byte payload — none when the
bytes are not valid UTF-8 JSON, in which case JSON.parse throws. -/
structure Msg where
  topic : String
  from_identity : String
  payload : Option Json

/-- An outbound data-channel publication (localParticipant.publishData). -/
structure OutMsg where
  topic : String
  payload : Json

/-- One transcript entry, as Playground.tsx builds it (ChatMessageType).
The message field holds decoded.text, whatever dynamic value that is. -/
structure ChatMessage where
  name : String
  message : Json
  timestamp : Int
  isSelf : Bool

/-- The four Playground useState stores touched by the embedded handlers:
transcripts, userCode, questionDescription and testResults. The description
and the test-results value are dynamic (set from payload data), hence Json. -/
structure PlaygroundState where
  transcripts : List ChatMessage
  userCode : String
  questionDescription : Json
  testResults : Option Json

/-- Initial Playground store values (the useState initialisers). -/
def initialPlaygroundState : PlaygroundState :=
  { transcripts := []
  , userCode := ""
  , questionDescription := .str ""
  , testResults := none }

/-- The livekit-client ConnectionState enum. -/
inductive ConnState where
  | disconnected
  | connecting
  | connected
  | reconnecting
  | signalReconnecting
  deriving BEq, DecidableEq

/-- The local participant handle; the handlers only test its presence and
publish through it. -/
structure Participant where
  identity : String

/-- The object spread of the test-results branch:
resultData = spread of decoded.data plus a state key set to decoded.data.mode.
A later literal key overwrites a spread one, modelled by filtering. Spreading
a non-object contributes no string-keyed properties worth modelling here; the
result is still an object containing the state key, matching JavaScript. -/
def mkResultData (dataJ : Json) (modeVal : Json) : Json :=
  match dataJ with
  | .obj fields => .obj ((fields.filter (fun f => !(f.1 == "state"))) ++ [("state", modeVal)])
  | _ => .obj [("state", modeVal)]

/-- The timestamp chosen for a transcription entry:
let timestamp = now; if (hasTs and tsVal greater than 0) timestamp = tsVal.
JavaScript relational coercion of a non-numeric timestamp value is not
modelled beyond being non-positive, which agrees with JavaScript for every
value except numeric strings, which the sender never produces and no claim
exercises. -/
def transcriptTimestamp (now : Int) (hasTs : Bool) (tsVal : Json) : Int :=
  match tsVal with
  | .num t => if hasTs && decide (0 < t) then t else now
  | _ => now

/-- Playground.tsx onDataReceived, the inbound topic router. The result is
.error () when the handler throws (JSON.parse failure on a malformed payload,
or a TypeError from property access on null or undefined), and .ok with the
updated stores otherwise. `now` is the Date value the handler would read. -/
def onDataReceived (now : Int) (msg : Msg) (s : PlaygroundState) :
    Except Unit PlaygroundState :=
  match msg.payload with
  | none => .error ()
  | some decoded =>
    if msg.topic == "transcription" then
      match decoded.hasProp "timestamp" with
      | none => .error ()
      | some hasTs =>
        let tsVal := (decoded.member "timestamp").getD .undefined
        let textVal := (decoded.member "text").getD .undefined
        let timestamp := transcriptTimestamp now hasTs tsVal
        .ok { s with transcripts :=
                s.transcripts ++
                  [{ name := "You", message := textVal
                   , timestamp := timestamp, isSelf := true }] }
    else
      match decoded.member "type" with
      | none => .error ()
      | some tyVal =>
        if tyVal.isStr "question_data" && msg.topic == "question-data" then
          match decoded.member "data" with
          | none => .error ()
          | some dataJ =>
            match dataJ.member "description", dataJ.member "skeleton_code" with
            | some description, some skeleton_code =>
              let formattedCode := (jsOr skeleton_code (.str "")).toTemplateString
              .ok { s with questionDescription := jsOr description (.str "")
                         , userCode := formattedCode }
            | _, _ => .error ()
        else if tyVal.isStr "test_results" && msg.topic == "test-results" then
          match decoded.member "data" with
          | none => .error ()
          | some dataJ =>
            match dataJ.member "mode" with
            | none => .error ()
            | some modeVal =>
              .ok { s with testResults := some (mkResultData dataJ modeVal) }
        else
          .ok s

/-- The Playground useEffect on roomState: entering Disconnected resets
userCode to the sentinel placeholder, clears the question description and
clears the transcript; entering Connected only toggles camera and microphone
on the local participant (no store change); other states change nothing. -/
def connStateEffect (roomState : ConnState) (s : PlaygroundState) : PlaygroundState :=
  match roomState with
  | .disconnected =>
      { s with userCode := "# Waiting for question..."
             , questionDescription := .str ""
             , transcripts := [] }
  | _ => s

/-- Playground.tsx handleCodeChange: always stores the new code synchronously;
publishes one code_update message on topic code exactly when the room is
Connected and the local participant handle is present. -/
def handleCodeChange (roomState : ConnState) (localParticipant : Option Participant)
    (now : Int) (newCode : String) (s : PlaygroundState) :
    PlaygroundState × List OutMsg :=
  let s2 := { s with userCode := newCode }
  if roomState == .connected && localParticipant.isSome then
    (s2, [{ topic := "code"
          , payload := .obj [ ("type", .str "code_update")
                            , ("code", .str newCode)
                            , ("timestamp", .num now) ] }])
  else
    (s2, [])

/-! ## The countdown timer (InterviewTimer.tsx, all three variants) -/

/-- InterviewTimer handleTimeUpdate (identical in all three variants of the
file): only interview-time messages are considered; the whole body is inside a
try/catch, so a JSON.parse failure or a TypeError on data.timeLeft is logged
and leaves the stored value unchanged; otherwise the raw data.timeLeft value
(of whatever dynamic type) is stored. -/
def handleTimeUpdate (msg : Msg) (timeLeft : Json) : Json :=
  if msg.topic == "interview-time" then
    match msg.payload with
    | none => timeLeft
    | some data =>
      match data.member "timeLeft" with
      | none => timeLeft
      | some v => v
  else
    timeLeft

/-- The useState initialiser of the string-based timer variants. -/
def initialTimeLeftStr : Json := .str "00:00:00"

/-- The useState initialiser of the numeric timer variant. -/
def initialTimeLeftNum : Json := .num 0

/-- String.prototype.split with a single-character separator, over the
character list (kernel-evaluable rendition of the split call of the source). -/
def splitOnCharAux (sep : Char) : List Char → List Char → List String
  | [], acc => [String.mk acc.reverse]
  | c :: rest, acc =>
    if c == sep then
      String.mk acc.reverse :: splitOnCharAux sep rest []
    else
      splitOnCharAux sep rest (c :: acc)

/-- The split call of the source: timeString.split with the colon. -/
def splitOnChar (sep : Char) (s : String) : List String :=
  splitOnCharAux sep s.toList []

/-- formatTimeDisplay of the string-based variants: split on the colon,
drop the hour part exactly when it is the literal string 00. A missing split
component interpolates as the string undefined, as a JavaScript template
literal renders undefined. -/
def formatTimeDisplay (timeString : String) : String :=
  let parts := splitOnChar ':' timeString
  let hours := parts.getD 0 "undefined"
  let minutes := parts.getD 1 "undefined"
  let seconds := parts.getD 2 "undefined"
  if hours == "00" then
    minutes ++ ":" ++ seconds
  else
    timeString

/-- What the string-based timer variants put in the clock span: timeString
must be a string for the split call; on any other stored value the split
member is not a function and the render throws (none). -/
def renderTimerStr (timeLeft : Json) : Option String :=
  match timeLeft with
  | .str s => some (formatTimeDisplay s)
  | _ => none

/-- String.prototype.padStart with target length 2 and pad character 0. -/
def padStart2 (s : String) : String :=
  if s.length == 0 then "00"
  else if s.length == 1 then "0" ++ s
  else s

/-- formatTime of the numeric timer variant on an integral seconds count:
Math.floor of the division is the floor division, and Math.floor of the
JavaScript remainder of integers is the truncated remainder. -/
def formatTime (seconds : Int) : String :=
  let minutes := Int.fdiv seconds 60
  let remainingSeconds := Int.tmod seconds 60
  toString minutes ++ ":" ++ padStart2 (toString remainingSeconds)

/-- What the numeric timer variant puts in the clock span: arithmetic coerces
the stored value with ToNumber; a NaN result renders as NaN:NaN (Math.floor of
NaN is NaN, and padStart leaves the three-character string NaN unchanged). -/
def renderTimerNum (timeLeft : Json) : String :=
  match timeLeft.toNumber with
  | some n => formatTime n
  | none => "NaN:NaN"

/-! ## The whole-session view used by the disconnect-reset claims -/

/-- The session-level stores the spec names, as the components hold them: the
Playground stores plus the timer store of the string-based InterviewTimer.
Nothing else in the source holds session state relevant to the claims. -/
structure SessionState where
  playground : PlaygroundState
  timerTimeLeft : Json

/-- All store updates triggered by a room connection-state change: Playground
is the only component whose effects read the connection state — the
InterviewTimer never observes it, so the timer store is untouched. -/
def onRoomStateChange (roomState : ConnState) (s : SessionState) : SessionState :=
  { s with playground := connStateEffect roomState s.playground }

/-! ## The TestResults component (TestResults.tsx) -/

/-- One test case as typed by the TestResults component; expected and actual
are arbitrary JSON values. The elapsed time is kept as the raw JSON number
carrier (only ever displayed, never computed with). -/
structure TestCase where
  test_id : String
  inputs : List String
  expected : Json
  actual : Json
  success : Bool
  error : Option String
  time : Int

/-- The summary block of a results payload. -/
structure TestSummary where
  total : Int
  passed : Int
  failed : Int
  execution_time : Int

/-- The results object: per-case list plus summary. -/
structure TestResultsData where
  test_results : List TestCase
  summary : TestSummary

/-- The results prop of the TestResults component, as Playground passes it:
the data object of a test_results payload with state set to its mode. -/
structure ResultsProp where
  success : Bool
  results : Option TestResultsData
  error : Option String
  mode : String
  state : String
  cooldown : Option Bool
  time_remaining : Option Int

/-- Truthiness of an optional boolean prop (undefined is falsy). -/
def truthyOptBool : Option Bool → Bool
  | none => false
  | some b => b

/-- Truthiness of an optional string prop (undefined and the empty string are
falsy). -/
def truthyOptStr : Option String → Bool
  | none => false
  | some s => !(s == "")

/-- The JavaScript or-else on an optional string (results.error or a
default). -/
def orElseStr (o : Option String) (d : String) : String :=
  match o with
  | none => d
  | some s => if s == "" then d else s

/-- The headline of the submit branch, derived from summary.passed equal to
summary.total. -/
def submitHeadline (summary : TestSummary) : String :=
  if summary.passed == summary.total then
    "All Tests Passed!"
  else
    toString summary.passed ++ "/" ++ toString summary.total ++ " Tests Passed"

/-- The banner of the submit branch, derived from summary.failed positive. -/
def submitBanner (summary : TestSummary) : String :=
  if decide (0 < summary.failed) then
    "Your submission did not pass all tests."
  else
    "Your submission passed all tests!"

/-- The dynamic data each return branch of the TestResults render puts in its
JSX: the cooldown and error views carry one message string; the empty view is
static; the submit view carries only the summary-derived headline, banner and
failure flag; the run view carries the full per-case list, the summary and the
selected index. -/
inductive RenderedView where
  | cooldownView (message : String)
  | errorView (message : String)
  | emptyView
  | submitView (headline : String) (banner : String) (failedPositive : Bool)
  | runView (cases : List TestCase) (summary : TestSummary) (selectedIndex : Nat)

/-- The render function of TestResults.tsx, branch for branch:
cooldown when success is falsy and cooldown truthy; error when success is
falsy and error truthy; the empty notice when results is absent or its case
list is empty (the middle guard of the source, testing the case array itself,
never fires for a present array since arrays are truthy); then the submit
summary when state is submit, else the run detail. -/
def renderTestResults (selectedIndex : Nat) (results : ResultsProp) : RenderedView :=
  if !results.success && truthyOptBool results.cooldown then
    .cooldownView (orElseStr results.error
      ("Please wait before running code again in " ++ results.mode ++ " mode."))
  else if !results.success && truthyOptStr results.error then
    .errorView (results.error.getD "")
  else
    match results.results with
    | none => .emptyView
    | some rr =>
      if rr.test_results.isEmpty then
        .emptyView
      else if results.state == "submit" then
        .submitView (submitHeadline rr.summary) (submitBanner rr.summary)
          (decide (0 < rr.summary.failed))
      else
        .runView rr.test_results rr.summary selectedIndex

/-- The per-case data a rendered view exposes: only the run view carries
any. -/
def exposedCases : RenderedView → List TestCase
  | .runView cases _ _ => cases
  | _ => []

/-- Whether a rendered view is the cooldown view. -/
def isCooldownView : RenderedView → Bool
  | .cooldownView _ => true
  | _ => false

/-- Whether a rendered view is the error view. -/
def isErrorView : RenderedView → Bool
  | .errorView _ => true
  | _ => false

/-! ## The mounted TestResults instance (React state semantics)

The selectedIndex of TestResults.tsx is a useState hook of the component
instance. While the instance stays mounted — and Playground keeps it mounted,
without a key prop, for as long as testResults is non-null — React preserves
hook state across re-renders, so replacing the results prop does not touch
selectedIndex; it is 0 only because useState(0) ran when the instance mounted,
and changes only through the Tab.Group onChange. -/

/-- A mounted TestResults instance: its current prop and its selectedIndex
hook state. -/
structure TestResultsInstance where
  props : ResultsProp
  selectedIndex : Nat

/-- Mounting the component: useState(0) initialises the selection. -/
def mountTestResults (results : ResultsProp) : TestResultsInstance :=
  { props := results, selectedIndex := 0 }

/-- A new inbound TestRun replaces the prop of the mounted instance; React
keeps the hook state, so the previous selection survives. -/
def onNewResults (inst : TestResultsInstance) (results : ResultsProp) :
    TestResultsInstance :=
  { inst with props := results }

/-- The Tab.Group onChange: the user selects a tab. -/
def onSelectTab (inst : TestResultsInstance) (i : Nat) : TestResultsInstance :=
  { inst with selectedIndex := i }

/-! ## The mounted-instance event trace used by the selection claims -/

/-- Events a mounted TestResults instance receives: a replacement results
prop from a new inbound message, or a user tab selection. -/
inductive PanelEvent where
  | newResults (r : ResultsProp)
  | selectTab (i : Nat)

/-- One event applied to the mounted instance. -/
def stepInstance (inst : TestResultsInstance) : PanelEvent → TestResultsInstance
  | .newResults r => onNewResults inst r
  | .selectTab i => onSelectTab inst i

/-- The instance after mounting on a first results prop and processing a
sequence of events. -/
def runPanel (r0 : ResultsProp) (evs : List PanelEvent) : TestResultsInstance :=
  evs.foldl stepInstance (mountTestResults r0)

/-- The selection a trace leaves: the last user-selected tab, 0 when none. -/
def lastSelection (evs : List PanelEvent) : Nat :=
  evs.foldl (fun acc e => match e with
    | .selectTab i => i
    | .newResults _ => acc) 0

/-! ## Shared example values -/

/-- A passing example test case. -/
def exCase1 : TestCase :=
  { test_id := "t1", inputs := ["[2,7,11,15]", "9"]
  , expected := .arr [.num 0, .num 1], actual := .arr [.num 0, .num 1]
  , success := true, error := none, time := 0 }

/-- A failing example test case. -/
def exCase2 : TestCase :=
  { test_id := "t2", inputs := ["[3,3]", "6"]
  , expected := .arr [.num 0, .num 1], actual := .null
  , success := false, error := some "index error", time := 0 }

/-- Summary for the two-case example run. -/
def exSummary : TestSummary :=
  { total := 2, passed := 1, failed := 1, execution_time := 3 }

/-- A two-case results object. -/
def exResultsData : TestResultsData :=
  { test_results := [exCase1, exCase2], summary := exSummary }

/-- A one-case results object. -/
def exResultsData1 : TestResultsData :=
  { test_results := [exCase1]
  , summary := { total := 1, passed := 1, failed := 0, execution_time := 1 } }

/-- A run-mode prop with two cases. -/
def exRunProp : ResultsProp :=
  { success := true, results := some exResultsData, error := none
  , mode := "run", state := "run", cooldown := none, time_remaining := none }

/-- A run-mode prop with one case. -/
def exRunProp1 : ResultsProp :=
  { success := true, results := some exResultsData1, error := none
  , mode := "run", state := "run", cooldown := none, time_remaining := none }

/-- A submit-mode prop carrying full per-case data on the wire. -/
def exSubmitProp : ResultsProp :=
  { success := true, results := some exResultsData, error := none
  , mode := "submit", state := "submit", cooldown := none, time_remaining := none }

/-- A cooldown payload as the server sends it: failure plus cooldown, with a
full results object also present on the wire. -/
def exCooldownProp : ResultsProp :=
  { success := false, results := some exResultsData
  , error := some "Please wait 30 seconds", mode := "run", state := "run"
  , cooldown := some true, time_remaining := some 30 }

/-- A payload with cooldown true but success true, results present. -/
def exCooldownSuccessProp : ResultsProp :=
  { success := true, results := some exResultsData, error := none
  , mode := "run", state := "run", cooldown := some true, time_remaining := some 30 }

/-- A failure payload carrying both an error text and a nonempty results
object. -/
def exErrorWithResultsProp : ResultsProp :=
  { success := false, results := some exResultsData, error := some "boom"
  , mode := "run", state := "run", cooldown := none, time_remaining := none }

/-- A session mid-interview: a transcript entry, edited code, a loaded
question, a displayed test run, and ten minutes on the clock. -/
def exSession : SessionState :=
  { playground :=
      { transcripts := [{ name := "You", message := .str "hello", timestamp := 5, isSelf := true }]
      , userCode := "print(1)"
      , questionDescription := .str "Two Sum"
      , testResults := some (.obj [("mode", .str "run"), ("state", .str "run")]) }
  , timerTimeLeft := .str "00:10:00" }

/-- A message whose byte payload is not valid UTF-8 JSON, on the transcription
topic. -/
def malformedTranscriptionMsg : Msg :=
  { topic := "transcription", from_identity := "agent", payload := none }

/-- A malformed message on the interview-time topic. -/
def malformedTimerMsg : Msg :=
  { topic := "interview-time", from_identity := "agent", payload := none }

/-- A question-data message with the given description and skeleton code. -/
def questionDataMsg (sender desc skel : String) : Msg :=
  { topic := "question-data", from_identity := sender
  , payload := some (.obj
      [ ("type", .str "question_data")
      , ("data", .obj [("description", .str desc), ("skeleton_code", .str skel)]) ]) }

/-- A transcription message with a numeric timestamp field. -/
def transcriptionMsgTs (sender text : String) (t : Int) : Msg :=
  { topic := "transcription", from_identity := sender
  , payload := some (.obj [("text", .str text), ("timestamp", .num t)]) }

/-- A transcription message without a timestamp field. -/
def transcriptionMsgNoTs (sender text : String) : Msg :=
  { topic := "transcription", from_identity := sender
  , payload := some (.obj [("text", .str text)]) }

/-! ## Helper lemmas -/

/-- The or-else against the empty string is the identity on string values. -/
lemma jsOr_str_empty (s : String) : jsOr (.str s) (.str "") = .str s := by
  by_cases h : s = ""
  · subst h; rfl
  · have hb : (s == "") = false := by simpa using h
    simp [jsOr, Json.truthy, hb]

/-- Template stringification of the or-else used for the skeleton code. -/
lemma template_jsOr_str (s : String) :
    (jsOr (.str s) (.str "")).toTemplateString = s := by
  rw [jsOr_str_empty]; rfl

/-- The transcription timestamp with the property present and numeric. -/
lemma transcriptTimestamp_true (now t : Int) :
    transcriptTimestamp now true (.num t) = if 0 < t then t else now := by
  simp [transcriptTimestamp]

/-- Replacements never change the selection of a mounted instance; only
selectTab events do. -/
lemma foldl_selectedIndex (evs : List PanelEvent) :
    ∀ inst : TestResultsInstance,
      (evs.foldl stepInstance inst).selectedIndex =
        evs.foldl (fun acc e => match e with
          | .selectTab i => i
          | .newResults _ => acc) inst.selectedIndex := by
  induction evs with
  | nil => intro inst; rfl
  | cons e rest ih =>
    intro inst
    cases e with
    | newResults r => simpa using ih (onNewResults inst r)
    | selectTab i => simpa using ih (onSelectTab inst i)

/-! ## Claim C1 -/

/-- C1 counterexample: after the transition to Disconnected, the Execution
Feedback store still holds the displayed run (not its initial none) and the
timer still reads 00:10:00 (not its initial 00:00:00), so not all five stores
are reset. -/
theorem c1_stale_feedback_and_timer_after_disconnect :
    ((onRoomStateChange .disconnected exSession).playground.testResults).isSome = true
    ∧ (onRoomStateChange .disconnected exSession).timerTimeLeft.isStr "00:10:00" = true
    ∧ (onRoomStateChange .disconnected exSession).timerTimeLeft.isStr "00:00:00" = false
    ∧ initialPlaygroundState.testResults = none
    ∧ initialTimeLeftStr.isStr "00:00:00" = true :=
  ⟨rfl, rfl, rfl, rfl, rfl⟩

/-- C1 (amended): transitioning to Disconnected resets exactly three stores —
the code buffer to the sentinel placeholder, the question description to
empty, the transcript to empty — while the Execution Feedback store and the
timer store keep their prior values, whatever the prior session state. -/
theorem c1_disconnect_resets_only_playground_stores (s : SessionState) :
    (onRoomStateChange .disconnected s).playground.userCode = "# Waiting for question..."
    ∧ (onRoomStateChange .disconnected s).playground.questionDescription = .str ""
    ∧ (onRoomStateChange .disconnected s).playground.transcripts = []
    ∧ (onRoomStateChange .disconnected s).playground.testResults = s.playground.testResults
    ∧ (onRoomStateChange .disconnected s).timerTimeLeft = s.timerTimeLeft :=
  ⟨rfl, rfl, rfl, rfl, rfl⟩

/-! ## Claim C2 -/

/-- C2 counterexample: on a malformed payload the Playground router throws —
JSON.parse is its first statement and is not wrapped in try/catch, so the
exception escapes to the caller instead of being logged and discarded. -/
theorem c2_parse_error_escapes_router :
    onDataReceived 0 malformedTranscriptionMsg initialPlaygroundState = .error () :=
  rfl

/-- C2 (amended): a malformed payload on any topic leaves every store
unchanged — the Playground router throws before reaching any store update
(the exception escapes to its caller rather than being caught), and the timer
handler catches the parse failure and keeps its stored value. -/
theorem c2_malformed_payload_leaves_stores_unchanged
    (now : Int) (msg : Msg) (s : PlaygroundState) (timerVal : Json)
    (h : msg.payload = none) :
    onDataReceived now msg s = .error ()
    ∧ handleTimeUpdate msg timerVal = timerVal := by
  constructor
  · unfold onDataReceived
    rw [h]
  · unfold handleTimeUpdate
    rw [h]
    by_cases ht : msg.topic == "interview-time" <;> simp [ht]

/-- C2 witness: the amended statement at a concrete malformed message. -/
theorem c2_malformed_payload_witness :
    malformedTimerMsg.payload = none
    ∧ onDataReceived 0 malformedTimerMsg initialPlaygroundState = .error ()
    ∧ handleTimeUpdate malformedTimerMsg initialTimeLeftStr = initialTimeLeftStr :=
  ⟨rfl,
   (c2_malformed_payload_leaves_stores_unchanged 0 malformedTimerMsg
      initialPlaygroundState initialTimeLeftStr rfl).1,
   (c2_malformed_payload_leaves_stores_unchanged 0 malformedTimerMsg
      initialPlaygroundState initialTimeLeftStr rfl).2⟩

/-! ## Claim C3 -/

/-- C3 counterexample: a test-results payload with cooldown true but success
true is not rendered as the Cooldown state — the guard requires failure too —
and its case-level data is displayed by the run branch. -/
theorem c3_successful_cooldown_shows_cases :
    isCooldownView (renderTestResults 0 exCooldownSuccessProp) = false
    ∧ exposedCases (renderTestResults 0 exCooldownSuccessProp) = exResultsData.test_results :=
  ⟨rfl, rfl⟩

/-- C3 (amended): a test-results payload with cooldown true and success false
enters the Cooldown state, displaying the error text or the generic wait
message, and no case-level data is displayed even when a results object is
present in the same payload. -/
theorem c3_cooldown_requires_failure_and_hides_cases
    (i : Nat) (r : ResultsProp)
    (hs : r.success = false) (hc : truthyOptBool r.cooldown = true) :
    renderTestResults i r =
      .cooldownView (orElseStr r.error
        ("Please wait before running code again in " ++ r.mode ++ " mode."))
    ∧ exposedCases (renderTestResults i r) = [] := by
  have hview : renderTestResults i r =
      .cooldownView (orElseStr r.error
        ("Please wait before running code again in " ++ r.mode ++ " mode.")) := by
    unfold renderTestResults
    rw [hs, hc]
    rfl
  exact ⟨hview, by rw [hview]; rfl⟩

/-- C3 witness: the amended statement at the concrete cooldown payload. -/
theorem c3_cooldown_witness :
    (exCooldownProp.success = false ∧ truthyOptBool exCooldownProp.cooldown = true
     ∧ exCooldownProp.results = some exResultsData)
    ∧ renderTestResults 0 exCooldownProp = .cooldownView "Please wait 30 seconds"
    ∧ exposedCases (renderTestResults 0 exCooldownProp) = [] := by
  have h := c3_cooldown_requires_failure_and_hides_cases 0 exCooldownProp rfl rfl
  exact ⟨⟨rfl, rfl, rfl⟩, h.1, h.2⟩

/-! ## Claim C4 -/

/-- C4 counterexample: the string-based timer variant does not render the raw
seconds input 45 as 0:45 — the stored number has no split method, so the
render throws — and the numeric variant does not render the formatted string
00:04:30 as 04:30 — arithmetic on it yields NaN. No variant accepts both
timeLeft shapes. -/
theorem c4_no_variant_accepts_both_formats :
    renderTimerStr (.num 45) ≠ some "0:45"
    ∧ renderTimerNum (.str "00:04:30") ≠ "04:30" := by
  constructor <;> decide

/-- C4 (amended): each timer variant accepts exactly one timeLeft shape and
stores it raw, without normalizing to seconds: the string-based variants
render 00:04:30 as 04:30 and 01:02:03 as 01:02:03 (hours dropped exactly when
the hour part is the literal 00) but throw on the number 45; the numeric
variant renders 45 as 0:45 but renders the string 00:04:30 as NaN:NaN. -/
theorem c4_each_timer_variant_accepts_one_format :
    renderTimerStr (.str "00:04:30") = some "04:30"
    ∧ renderTimerStr (.str "01:02:03") = some "01:02:03"
    ∧ renderTimerNum (.num 45) = "0:45"
    ∧ renderTimerStr (.num 45) = none
    ∧ renderTimerNum (.str "00:04:30") = "NaN:NaN"
    ∧ handleTimeUpdate
        { topic := "interview-time", from_identity := "agent"
        , payload := some (.obj [("timeLeft", .str "00:04:30")]) }
        initialTimeLeftStr = .str "00:04:30"
    ∧ handleTimeUpdate
        { topic := "interview-time", from_identity := "agent"
        , payload := some (.obj [("timeLeft", .num 45)]) }
        initialTimeLeftNum = .num 45 :=
  ⟨by decide, by decide, by decide, by decide, by decide, rfl, rfl⟩

/-! ## Claim C5 -/

/-- C5 counterexample: mount on a two-case run, select case 1, then receive a
one-case run. The selection survives the replacement: it is still 1, which is
not a valid index of the one-case run and is not 0. -/
theorem c5_stale_selection_after_replacement :
    (onNewResults (onSelectTab (mountTestResults exRunProp) 1) exRunProp1).selectedIndex = 1
    ∧ ((onNewResults (onSelectTab (mountTestResults exRunProp) 1) exRunProp1).props.results.map
         (fun rr => rr.test_results.length)) = some 1
    ∧ ¬((onNewResults (onSelectTab (mountTestResults exRunProp) 1) exRunProp1).selectedIndex < 1)
    ∧ (onNewResults (onSelectTab (mountTestResults exRunProp) 1) exRunProp1).selectedIndex ≠ 0 :=
  ⟨rfl, rfl, by decide, by decide⟩

/-- C5 (amended): the selected-case index is 0 when the results panel mounts
and thereafter equals the last tab the user selected; replacing the displayed
TestRun by a new inbound one while the panel stays mounted never changes the
selection, so it is not re-clamped to the new case count. -/
theorem c5_selection_persists_across_replacements
    (r0 : ResultsProp) (evs : List PanelEvent) :
    (runPanel r0 evs).selectedIndex = lastSelection evs := by
  unfold runPanel lastSelection
  rw [foldl_selectedIndex]
  rfl

/-! ## Claim C6 -/

/-- C6 counterexample: with success false, error present and a results object
present, the component shows the Error display variant — it does not proceed
to the empty-check and mode-based rendering as the claim requires for
payloads with results. -/
theorem c6_error_view_despite_results_present :
    exErrorWithResultsProp.results.isSome = true
    ∧ renderTestResults 0 exErrorWithResultsProp = .errorView "boom" :=
  ⟨rfl, rfl⟩

/-- C6 (amended): for a payload whose cooldown flag is not truthy, the Error
display variant is shown exactly when success is false and a nonempty error
text is present — the presence of a results object is not consulted; only
when the error branch (and the cooldown branch) decline does the payload
proceed to the empty-check and mode-based rendering. -/
theorem c6_error_view_iff_failure_with_error_text
    (i : Nat) (r : ResultsProp) :
    isErrorView (renderTestResults i r) =
      (!r.success && !truthyOptBool r.cooldown && truthyOptStr r.error) := by
  rcases r with ⟨succ, results, error, mode, state, cooldown, tr⟩
  cases succ
  · by_cases hc : truthyOptBool cooldown
    · simp [renderTestResults, hc, isErrorView]
    · have hcf : truthyOptBool cooldown = false := by simpa using hc
      by_cases he : truthyOptStr error
      · simp [renderTestResults, hcf, he, isErrorView]
      · have hef : truthyOptStr error = false := by simpa using he
        cases results with
        | none => simp [renderTestResults, hcf, hef, isErrorView]
        | some rr =>
          by_cases h3 : rr.test_results.isEmpty <;>
            by_cases h4 : state == "submit" <;>
              simp [renderTestResults, hcf, hef, h3, h4, isErrorView]
  · cases results with
    | none => simp [renderTestResults, isErrorView]
    | some rr =>
      by_cases h3 : rr.test_results.isEmpty <;>
        by_cases h4 : state == "submit" <;>
          simp [renderTestResults, h3, h4, isErrorView]

/-! ## Claim C7 -/

/-- C7: a TestRun that reaches the mode dispatch (cooldown and error branches
declined, results present and nonempty) renders, in submit state, a view
carrying only the summary-derived headline, banner and failure flag — no
per-case data — with the headline keyed on summary.passed equalling
summary.total; in any other state it renders the run-detail view carrying the
full per-case list. -/
theorem c7_submit_summary_only_run_full_detail
    (i : Nat) (r : ResultsProp) (rr : TestResultsData)
    (hres : r.results = some rr) (hne : rr.test_results ≠ [])
    (hcool : (!r.success && truthyOptBool r.cooldown) = false)
    (herr : (!r.success && truthyOptStr r.error) = false) :
    (r.state = "submit" →
       renderTestResults i r =
         .submitView (submitHeadline rr.summary) (submitBanner rr.summary)
           (decide (0 < rr.summary.failed))
       ∧ exposedCases (renderTestResults i r) = [])
    ∧ (r.state ≠ "submit" →
       renderTestResults i r = .runView rr.test_results rr.summary i
       ∧ exposedCases (renderTestResults i r) = rr.test_results) := by
  have h3 : rr.test_results.isEmpty = false := by
    simpa [List.isEmpty_iff] using hne
  constructor
  · intro hstate
    have hb : (r.state == "submit") = true := by simpa using hstate
    have hr : renderTestResults i r =
        .submitView (submitHeadline rr.summary) (submitBanner rr.summary)
          (decide (0 < rr.summary.failed)) := by
      simp [renderTestResults, hcool, herr, hres, h3, hb]
    exact ⟨hr, by rw [hr]; rfl⟩
  · intro hstate
    have hb : (r.state == "submit") = false := by simpa using hstate
    have hr : renderTestResults i r = .runView rr.test_results rr.summary i := by
      simp [renderTestResults, hcool, herr, hres, h3, hb]
    exact ⟨hr, by rw [hr]; rfl⟩

/-- C7 witness: the submit projection of the two-case example exposes only
the summary (1 of 2 passed, failure banner), while the run projection of the
same results exposes the full case list. -/
theorem c7_submit_summary_witness :
    renderTestResults 0 exSubmitProp =
      .submitView "1/2 Tests Passed" "Your submission did not pass all tests." true
    ∧ exposedCases (renderTestResults 0 exSubmitProp) = []
    ∧ renderTestResults 0 exRunProp = .runView exResultsData.test_results exResultsData.summary 0
    ∧ exposedCases (renderTestResults 0 exRunProp) = exResultsData.test_results := by
  have hs := c7_submit_summary_only_run_full_detail 0 exSubmitProp exResultsData
    rfl (List.cons_ne_nil _ _) rfl rfl
  have hw := c7_submit_summary_only_run_full_detail 0 exRunProp exResultsData
    rfl (List.cons_ne_nil _ _) rfl rfl
  obtain ⟨h1, h2⟩ := hs.1 rfl
  obtain ⟨h3, h4⟩ := hw.2 (by decide)
  refine ⟨?_, h2, h3, h4⟩
  rw [h1]; rfl

/-! ## Claim C8 -/

/-- C8: a local edit always stores the new code synchronously, in every
connection state; one code_update message with the new text and the timestamp
is published on the code topic exactly when the room state is Connected (the
local participant handle being present, as the hook guarantees), and nothing
is published in any other state. -/
theorem c8_code_update_emitted_iff_connected
    (roomState : ConnState) (p : Participant) (now : Int) (newCode : String)
    (s : PlaygroundState) :
    (handleCodeChange roomState (some p) now newCode s).1 = { s with userCode := newCode }
    ∧ (handleCodeChange roomState (some p) now newCode s).2 =
        (if roomState == .connected then
          [{ topic := "code"
           , payload := .obj [ ("type", .str "code_update")
                             , ("code", .str newCode)
                             , ("timestamp", .num now) ] }]
        else []) := by
  by_cases h : roomState == ConnState.connected <;>
    simp [handleCodeChange, h]

/-! ## Claim C9 -/

/-- C9: applying a question-data message fully overwrites the code buffer
with the skeleton code — the prior buffer content does not influence the
result — and stores the description; a subsequent local code edit leaves the
stored question description unchanged. -/
theorem c9_question_data_overwrites_buffer_only
    (now : Int) (sender : String) (s : PlaygroundState) (desc skel : String)
    (roomState : ConnState) (p : Option Participant) (now2 : Int) (newCode : String) :
    onDataReceived now (questionDataMsg sender desc skel) s
      = .ok { s with questionDescription := .str desc, userCode := skel }
    ∧ (handleCodeChange roomState p now2 newCode
        { s with questionDescription := .str desc, userCode := skel }).1.questionDescription
      = .str desc := by
  constructor
  · have h0 : onDataReceived now (questionDataMsg sender desc skel) s
        = .ok { s with questionDescription := jsOr (.str desc) (.str "")
                     , userCode := (jsOr (.str skel) (.str "")).toTemplateString } := rfl
    rw [h0, template_jsOr_str, jsOr_str_empty]
  · unfold handleCodeChange
    dsimp only
    split <;> rfl

/-! ## Claim C10 -/

/-- C10: any message on the transcription topic, from any sender, is appended
at the end of the transcript tagged as self with name You; the entry takes
the payload timestamp when that field is present and positive, and the local
arrival time otherwise (absent field, or present but non-positive). -/
theorem c10_transcription_appended_as_self
    (now : Int) (sender text : String) (t : Int) (s : PlaygroundState) :
    onDataReceived now (transcriptionMsgTs sender text t) s
      = .ok { s with transcripts := s.transcripts ++
          [{ name := "You", message := .str text
           , timestamp := if 0 < t then t else now, isSelf := true }] }
    ∧ onDataReceived now (transcriptionMsgNoTs sender text) s
      = .ok { s with transcripts := s.transcripts ++
          [{ name := "You", message := .str text, timestamp := now, isSelf := true }] } := by
  constructor
  · have h0 : onDataReceived now (transcriptionMsgTs sender text t) s
        = .ok { s with transcripts := s.transcripts ++
            [{ name := "You", message := .str text
             , timestamp := transcriptTimestamp now true (.num t), isSelf := true }] } := rfl
    rw [h0, transcriptTimestamp_true]
  · rfl
